import Mathlib

/-!
Verification of the LC-3 simulator core (`simulator-lc3`).

This file shallowly embeds the microcoded control unit
(`src/state_machine/state_machine.cpp`, `states.cpp`, `signals.cpp`,
`ext.cpp`, the globals of `src/mem/*`) and the configurable pipeline model
(`src/src/core/pipeline/pipeline_simulator.c`, with the configuration
entry point of the duplicated implementation in
`src/src/core/memory/control_store.c`), and proves or refutes the frozen
claims about them.

Machine integers are modelled as `Nat` with explicit `% 2 ^ 16`
truncation wherever the C code performs 16-bit arithmetic; 8-bit
condition-signal variables that only ever hold 0/1 are modelled as
`Bool`.
-/

namespace LC3

/-- Truncation to a 16-bit word, applied wherever a C expression is
assigned to a `uint16_t` after arithmetic. -/
def w16 (x : Nat) : Nat := x % 65536

/-- `bit_table[i]` from `src/state_machine/ext.cpp`. -/
def bit_table (i : Nat) : Nat := 2 ^ i

/-- `SEXT(ir, bit)` from `src/state_machine/ext.cpp`: keep the low
`bit+1` bits and, when bit `bit` is set, fill the upper bits of the
16-bit word with ones. -/
def SEXT (ir : Nat) (bit : Nat) : Nat :=
  let mask := 2 ^ (bit + 1) - 1
  let value := ir &&& mask
  if value.testBit bit then value ||| (65535 ^^^ mask) else value

/-- `ZEXT(ir, bit)` from `src/state_machine/ext.cpp`: clear all bits
above bit `bit`. -/
def ZEXT (ir : Nat) (bit : Nat) : Nat := ir &&& (2 ^ (bit + 1) - 1)

/-- The number of entries of the global memory array: the source
declares `word_t mem[UINT16_MAX]` in `src/mem/memory.h` and
`src/src/core/memory/memory.cpp`, and `UINT16_MAX = 65535`. -/
def MEM_ARRAY_SIZE : Nat := 65535

/-- An address is an in-bounds index of the global `mem` array. -/
def memInBounds (a : Nat) : Prop := a < MEM_ARRAY_SIZE

instance (a : Nat) : Decidable (memInBounds a) := by
  unfold memInBounds; infer_instance

/-- Device-register addresses from `device_register.h`. -/
def MCR_ADDR : Nat := 0xFFFE

/-- `PSR` device-register address from `device_register.h`. -/
def PSR_ADDR : Nat := 0xFFFC

/-- The architectural state of the simulator: the global variables of
`src/mem/register.h`, `src/mem/memory.h` and
`src/state_machine/signals.cpp`, plus the state-machine variables of
`src/state_machine/state_machine.cpp`. -/
structure SMState where
  pc : Nat                 -- pointer_counter (uint16_t)
  ir : Nat                 -- instruction_reg (uint16_t)
  mar : Nat                -- mem_addr_reg (uint16_t)
  mdr : Nat                -- mem_data_reg (uint16_t)
  reg : Nat → Nat          -- reg[8] (uint16_t each, indexed 0..7)
  mem : Nat → Nat          -- mem[] (uint16_t each)
  n : Bool                 -- N
  z : Bool                 -- Z
  p : Bool                 -- P
  ben : Bool               -- BEN
  intf : Bool              -- INT
  rsig : Bool              -- R
  psr15 : Bool             -- PSR_15
  acv : Bool               -- ACV
  currentState : Nat       -- current_state (uint8_t)
  halted : Bool            -- machine_halted
  error : Bool             -- machine_error
  deriving Inhabited

/-- Write a single register (`reg[i] = v`). -/
def setReg (s : SMState) (i v : Nat) : SMState :=
  { s with reg := fun k => if k = i then v else s.reg k }

/-- Write a single memory word (`mem[a] = v`). -/
def memWrite (s : SMState) (a v : Nat) : SMState :=
  { s with mem := fun k => if k = a then v else s.mem k }

/-- `SET_CC` from `src/state_machine/signals.cpp`: clear N, Z, P, then
set Z if the value is zero, N if its sign bit is set, P otherwise. -/
def SET_CC (v : Nat) (s : SMState) : SMState :=
  if v = 0 then { s with n := false, z := true, p := false }
  else if v &&& bit_table 15 ≠ 0 then { s with n := true, z := false, p := false }
  else { s with n := false, z := false, p := true }

/-- `SET_ACV` from `src/state_machine/signals.cpp`: a violation iff the
MAR lies outside user space while in user mode (`!PSR_15`). -/
def SET_ACV (s : SMState) : SMState :=
  { s with acv := decide ((s.mar < 0x3000 ∨ s.mar > 0xFDFF) ∧ s.psr15 = false) }

/-- `SET_BEN` from `src/state_machine/signals.cpp`:
`BEN = (N ∧ IR[11]) ∨ (Z ∧ IR[10]) ∨ (P ∧ IR[9])`. -/
def SET_BEN (s : SMState) : SMState :=
  { s with ben := (s.n && s.ir.testBit 11) || (s.z && s.ir.testBit 10)
                  || (s.p && s.ir.testBit 9) }

/-- Destination-register index `ZEXT(ir >> 9, 2)`. -/
def drIdx (s : SMState) : Nat := (s.ir >>> 9) &&& 7

/-- First source / base register index `ZEXT(ir >> 6, 2)`. -/
def sr1Idx (s : SMState) : Nat := (s.ir >>> 6) &&& 7

/-- Second source register index `ZEXT(ir, 2)`. -/
def sr2Idx (s : SMState) : Nat := s.ir &&& 7

/-- The per-state action routines `state_0` .. `state_63` of
`src/state_machine/states.cpp`, dispatched by state number exactly as
`state_function_ptr_array` does.  States whose bodies are empty in the
source are the identity. -/
def execState (i : Nat) (s : SMState) : SMState :=
  match i with
  | 0 =>
    -- state_0: BR, add the offset when BEN is set
    if s.ben then { s with pc := w16 (s.pc + SEXT s.ir 8) } else s
  | 1 =>
    -- state_1: ADD
    let v := if s.ir &&& bit_table 5 ≠ 0
             then w16 (s.reg (sr1Idx s) + SEXT s.ir 4)
             else w16 (s.reg (sr1Idx s) + s.reg (sr2Idx s))
    SET_CC v (setReg s (drIdx s) v)
  | 2 =>
    -- state_2: LD1, MAR ← PC + sext9
    SET_ACV { s with mar := w16 (s.pc + SEXT s.ir 8) }
  | 3 =>
    -- state_3: ST1, MAR ← PC + sext9
    SET_ACV { s with mar := w16 (s.pc + SEXT s.ir 8) }
  | 4 =>
    -- state_4: ST2, mem[MAR] ← MDR
    { memWrite s s.mar s.mdr with rsig := true }
  | 5 =>
    -- state_5: AND
    let v := if s.ir &&& bit_table 5 ≠ 0
             then s.reg (sr1Idx s) &&& SEXT s.ir 4
             else s.reg (sr1Idx s) &&& s.reg (sr2Idx s)
    SET_CC v (setReg s (drIdx s) v)
  | 6 =>
    -- state_6: LDR1, MAR ← BaseR + sext6
    SET_ACV { s with mar := w16 (s.reg (sr1Idx s) + SEXT (s.ir &&& 0x3F) 5) }
  | 7 =>
    -- state_7: STR1, MAR ← BaseR + sext6
    SET_ACV { s with mar := w16 (s.reg (sr1Idx s) + SEXT (s.ir &&& 0x3F) 5) }
  | 8 =>
    -- state_8: RTI, pops PC then PSR when in supervisor mode
    if s.psr15 then
      let r6 := s.reg 6
      let s1 := setReg { s with pc := s.mem r6 } 6 (w16 (r6 + 1))
      let v := s1.mem (s1.reg 6)
      let s2 := memWrite s1 PSR_ADDR v
      let s3 := setReg s2 6 (w16 (s2.reg 6 + 1))
      { s3 with psr15 := decide (v &&& 0x8000 ≠ 0) }
    else s
  | 9 =>
    -- state_9: NOT
    let v := 65535 ^^^ w16 (s.reg (sr1Idx s))
    SET_CC v (setReg s (drIdx s) v)
  | 10 =>
    -- state_10: LDI1, MAR ← PC + sext9
    SET_ACV { s with mar := w16 (s.pc + SEXT s.ir 8) }
  | 11 =>
    -- state_11: STI2, MAR ← mem[MAR]
    SET_ACV { s with mar := s.mem s.mar, rsig := true }
  | 12 =>
    -- state_12: JMP
    { s with pc := s.reg (sr1Idx s) }
  | 13 =>
    -- state_13: STI3, mem[MAR] ← MDR
    { memWrite s s.mar s.mdr with rsig := true }
  | 14 =>
    -- state_14: LEA
    let v := w16 (s.pc + SEXT s.ir 8)
    SET_CC v (setReg s (drIdx s) v)
  | 15 =>
    -- state_15: TRAP, R7 ← PC; PC ← mem[zext8]
    let s1 := setReg s 7 s.pc
    { s1 with pc := s1.mem (ZEXT s.ir 7) }
  | 16 =>
    -- state_16: mem[MAR] ← MDR
    { memWrite s s.mar s.mdr with rsig := true }
  | 18 =>
    -- state_18: FETCH1, MAR ← PC; PC ← PC + 1; set ACV
    SET_ACV { s with mar := s.pc, pc := w16 (s.pc + 1) }
  | 20 =>
    -- state_20: JSRR, R7 ← PC; PC ← BaseR
    let s1 := setReg s 7 s.pc
    { s1 with pc := s1.reg (sr1Idx s1) }
  | 21 =>
    -- state_21: JSR, R7 ← PC; PC ← PC + sext11
    let s1 := setReg s 7 s.pc
    { s1 with pc := w16 (s1.pc + SEXT (s1.ir &&& 0x7FF) 10) }
  | 22 =>
    -- state_22: branch taken, PC ← PC + sext9
    { s with pc := w16 (s.pc + SEXT s.ir 8) }
  | 23 =>
    -- state_23: MDR ← SR (ST data prepare)
    { s with mdr := s.reg ((s.ir >>> 9) &&& 7) }
  | 25 =>
    -- state_25: MDR ← mem[MAR]
    { s with mdr := s.mem s.mar, rsig := true }
  | 28 =>
    -- state_28: MDR ← mem[MAR]
    { s with mdr := s.mem s.mar, rsig := true }
  | 30 =>
    -- state_30: LOAD_IR, IR ← MDR
    { s with ir := s.mdr }
  | 32 =>
    -- state_32: DECODE, set BEN
    SET_BEN s
  | 34 =>
    -- state_34: LD2, MDR ← mem[MAR]
    { s with mdr := s.mem s.mar, rsig := true }
  | 35 =>
    -- state_35: FETCH3, MDR ← mem[MAR]
    { s with mdr := s.mem s.mar, rsig := true }
  | 36 =>
    -- state_36: LD3, DR ← MDR; set CC
    SET_CC s.mdr (setReg s (drIdx s) s.mdr)
  | 37 =>
    -- state_37: LDR2, MDR ← mem[MAR]
    { s with mdr := s.mem s.mar, rsig := true }
  | 38 =>
    -- state_38: LDR3, DR ← MDR; set CC
    SET_CC s.mdr (setReg s (drIdx s) s.mdr)
  | 39 =>
    -- state_39: STR2, MDR ← SR; mem[MAR] ← MDR
    let s1 := { s with mdr := s.reg ((s.ir >>> 9) &&& 7) }
    { memWrite s1 s1.mar s1.mdr with rsig := true }
  | 40 =>
    -- state_40: LDI2, MAR ← mem[MAR]; set ACV
    SET_ACV { s with mar := s.mem s.mar, rsig := true }
  | 41 =>
    -- state_41: LDI3, MDR ← mem[MAR]
    { s with mdr := s.mem s.mar, rsig := true }
  | 42 =>
    -- state_42: LDI4, DR ← MDR; set CC
    SET_CC s.mdr (setReg s (drIdx s) s.mdr)
  | 43 =>
    -- state_43: TRAP2, MAR ← zext8
    { s with mar := ZEXT s.ir 7 }
  | 44 =>
    -- state_44: TRAP3, MDR ← mem[MAR]
    { s with mdr := s.mem s.mar, rsig := true }
  | 45 =>
    -- state_45: TRAP4, PC ← MDR
    { s with pc := s.mdr }
  | 46 =>
    -- state_46: interrupt entry
    if s.intf && !s.psr15 then
      let s1 := setReg s 6 (w16 (s.reg 6 + 65535))
      let s2 := memWrite s1 (s1.reg 6) (s1.mem PSR_ADDR)
      let s3 := setReg s2 6 (w16 (s2.reg 6 + 65535))
      let s4 := memWrite s3 (s3.reg 6) s3.pc
      { s4 with psr15 := true, pc := s4.mem 0x0100 }
    else s
  | _ => s

/-- `handle_fetch_transition` from `src/state_machine/state_machine.cpp`:
interrupt check during fetch. -/
def handle_fetch_transition (s : SMState) : Nat :=
  if s.intf && !s.psr15 then 46 else 33

/-- `handle_decode_transition` from `state_machine.cpp`: dispatch on
`IR[15:12]`; the default (unused opcode) case sets `machine_error` and
goes to `UNKNOWN_INSTRUCTION` (63).  Returns the next state together
with the updated error flag. -/
def handle_decode_transition (s : SMState) : Nat × Bool :=
  match s.ir &&& 0xF000 with
  | 0x1000 => (1, s.error)        -- ADD
  | 0x5000 => (5, s.error)        -- AND
  | 0x0000 => (0, s.error)        -- BR
  | 0xC000 => (12, s.error)       -- JMP
  | 0x4000 =>                     -- JSR / JSRR on IR[11]
    if s.ir &&& bit_table 11 ≠ 0 then (21, s.error) else (20, s.error)
  | 0x2000 => (2, s.error)        -- LD
  | 0xA000 => (10, s.error)       -- LDI
  | 0x6000 => (6, s.error)        -- LDR
  | 0xE000 => (14, s.error)       -- LEA
  | 0x9000 => (9, s.error)        -- NOT
  | 0x8000 => (8, s.error)        -- RTI
  | 0x3000 => (3, s.error)        -- ST
  | 0xB000 => (11, s.error)       -- STI
  | 0x7000 => (7, s.error)        -- STR
  | 0xF000 => (15, s.error)       -- TRAP
  | _ => (63, true)               -- unknown opcode

/-- `handle_execution_transition` from `state_machine.cpp`: multi-cycle
chains and the branch-taken split; everything else returns to FETCH1. -/
def handle_execution_transition (s : SMState) : Nat :=
  match s.currentState with
  | 2 => 25         -- LD1 → LD2
  | 25 => 27        -- LD2 → LD3
  | 10 => 40        -- LDI1 → LDI2
  | 40 => 41
  | 41 => 42
  | 6 => 37         -- LDR1 → LDR2
  | 37 => 38
  | 3 => 4          -- ST1 → ST2
  | 11 => 13        -- STI1 → STI2
  | 7 => 39         -- STR1 → STR2
  | 15 => 43        -- TRAP1 → TRAP2
  | 43 => 44
  | 44 => 45
  | 0 => if s.ben then 22 else 18  -- BR → branch taken / FETCH1
  | _ => 18

/-- `get_next_state` from `state_machine.cpp`, returning the machine
with `current_state` (and, for the decode dispatch, `machine_error`)
updated. -/
def get_next_state (s : SMState) : SMState :=
  match s.currentState with
  | 18 => { s with currentState := handle_fetch_transition s }
  | 33 => { s with currentState := 35 }
  | 35 => { s with currentState := 32 }
  | 32 => { s with currentState := (handle_decode_transition s).1,
                   error := (handle_decode_transition s).2 }
  | _ => { s with currentState := handle_execution_transition s }

/-- `execute_current_state` from `state_machine.cpp`: run the action
routine when the state number is in range, else flag an error. -/
def execute_current_state (s : SMState) : SMState :=
  if s.currentState < 64 then execState s.currentState s
  else { s with error := true }

/-- One iteration of the `while` loop of `state_machine`: execute the
current state, compute the next state, apply `check_halt_conditions`,
then the `pointer_counter > UINT16_MAX` safety guard. -/
def smIter (s : SMState) : SMState :=
  let s1 := execute_current_state s
  let s2 := get_next_state s1
  if (s2.mem MCR_ADDR) &&& 0x8000 = 0 then { s2 with halted := true }
  else if s2.error then s2
  else if s2.acv then { s2 with error := true }
  else if s2.pc > 65535 then { s2 with error := true }
  else s2

/-- `should_continue_execution` from `state_machine.cpp`. -/
def should_continue (s : SMState) : Bool :=
  !s.halted && !s.error && decide (s.pc ≤ 65535)

/-- The main loop of `state_machine`, run with explicit fuel: while
`should_continue_execution`, perform one iteration. -/
def smRun : Nat → SMState → SMState
  | 0, s => s
  | fuel + 1, s => if should_continue s then smRun fuel (smIter s) else s

/-- The safety-guard condition of `state_machine`'s loop
(`pointer_counter > UINT16_MAX`). -/
def guardFires (s : SMState) : Bool := decide (s.pc > 65535)

/-! ### Claim C1: the fetch sequence and the LOAD_IR state -/

/-- C1: the claim states that every macro-instruction passes through
FETCH2, FETCH3, then LOAD_IR (state 30, IR ← MDR) before DECODE.  The
code refutes it: `get_next_state` sends FETCH2 (33) to FETCH3 (35) and
FETCH3 directly to DECODE (32), state 30 is not the successor of any
state at all, and none of the fetch/decode action routines writes IR —
so DECODE dispatches on a stale IR, never on the word fetched this
cycle. -/
theorem fetch3_goes_to_decode_and_load_ir_unreachable :
    (∀ s : SMState, (get_next_state { s with currentState := 33 }).currentState = 35)
    ∧ (∀ s : SMState, (get_next_state { s with currentState := 35 }).currentState = 32)
    ∧ (∀ s : SMState, (get_next_state s).currentState ≠ 30)
    ∧ (∀ s : SMState, (execState 18 s).ir = s.ir ∧ (execState 33 s).ir = s.ir
        ∧ (execState 35 s).ir = s.ir ∧ (execState 32 s).ir = s.ir) := by
  refine ⟨fun s => rfl, fun s => rfl, ?_, fun s => ⟨rfl, rfl, rfl, rfl⟩⟩
  intro s
  unfold get_next_state
  split
  · show handle_fetch_transition s ≠ 30
    unfold handle_fetch_transition
    split <;> decide
  · simp
  · simp
  · show (handle_decode_transition s).1 ≠ 30
    unfold handle_decode_transition
    split <;> simp
    split <;> simp
  · show handle_execution_transition s ≠ 30
    unfold handle_execution_transition
    split <;> first | decide | (split <;> decide)

/-! ### Claim C2: size of the memory array -/

/-- C2: the claim states that memory is fully populated over the whole
16-bit address space (65 536 entries), so that 0xFFFF is a valid
location.  The code refutes it: the array is declared
`word_t mem[UINT16_MAX]`, i.e. 65 535 entries with valid indices
0x0000..0xFFFE, so the access at 0xFFFF is out of bounds — and the
fetch microstate reaches that index as soon as PC wraps to 0xFFFF. -/
theorem mem_array_is_one_word_short :
    ¬ memInBounds 0xFFFF ∧ memInBounds 0xFFFE ∧ MEM_ARRAY_SIZE = 65535
    ∧ (∀ s : SMState, (execState 18 { s with pc := 0xFFFF }).mar = 0xFFFF) := by
  refine ⟨by decide, by decide, rfl, fun s => rfl⟩

/-! ### Concrete machines used to evaluate the microcode chains -/

/-- A reset-like machine: registers and memory zero, Z set, supervisor
mode, no interrupt, at FETCH1, running. -/
def baseState : SMState where
  pc := 0
  ir := 0
  mar := 0
  mdr := 0
  reg := fun _ => 0
  mem := fun _ => 0
  n := false
  z := true
  p := false
  ben := false
  intf := false
  rsig := false
  psr15 := true
  acv := false
  currentState := 18
  halted := false
  error := false

/-- A machine about to decode `ST R2, #1` (0x3401): the fetch sequence
has completed, so PC has been incremented to 0x3001, MDR holds the word
read from memory, R2 holds 0xABCD, and the MCR run bit is set. -/
def stState : SMState :=
  { baseState with
      currentState := 32
      pc := 0x3001
      ir := 0x3401
      mar := 0x3000
      mdr := 0x3401
      reg := fun k => if k = 2 then 0xABCD else 0
      mem := fun a => if a = 0x3000 then 0x3401 else if a = MCR_ADDR then 0x8000 else 0 }

/-! ### Claim C3: what ST writes to memory -/

/-- C3: the claim states that after the ST chain (ST1 then ST2) returns
to fetch, `mem[PC_incremented + sext9]` equals `reg[IR[11:9]]`.  The
code refutes it: the decode dispatch sends ST to state 3 and then state
4, and neither state loads MDR from the source register (state 23,
which would do `MDR ← SR`, is never part of the chain), so state 4
stores the stale MDR — the fetched instruction word itself.  Running
the concrete `ST R2, #1` with R2 = 0xABCD leaves 0x3401 in memory at
the target address, not 0xABCD. -/
theorem st_stores_stale_mdr_not_source_register :
    (smRun 3 stState).mem 0x3002 = 0x3401
    ∧ stState.reg ((stState.ir >>> 9) &&& 7) = 0xABCD
    ∧ (smRun 3 stState).mem 0x3002 ≠ stState.reg ((stState.ir >>> 9) &&& 7)
    ∧ (smRun 3 stState).currentState = 18 := by
  refine ⟨by decide, by decide, by decide, by decide⟩

/-! ### Claim C4: the PC after a taken branch -/

/-- A machine about to decode `BRnzp #-2` (0x0FFE) with Z set, so the
branch will be taken; PC has been fetch-incremented to 0x3002. -/
def brState : SMState :=
  { baseState with
      currentState := 32
      pc := 0x3002
      ir := 0x0FFE
      mdr := 0x0FFE
      mem := fun a => if a = MCR_ADDR then 0x8000 else 0 }

/-- C4: the claim states that a taken branch ends with
`PC = PC_incremented + sext9` (the offset added exactly once).  The
code refutes it: state 0 already performs `PC ← PC + sext9` when BEN is
set, and the transition then goes through the branch-taken state 22,
which adds the offset a second time.  For `BRnzp #-2` decoded at
PC = 0x3002 the final PC is 0x2FFE = PC + 2·sext9, not 0x3000. -/
theorem taken_branch_adds_offset_twice :
    (smRun 3 brState).pc = w16 (brState.pc + SEXT brState.ir 8 + SEXT brState.ir 8)
    ∧ (smRun 3 brState).pc = 0x2FFE
    ∧ (smRun 3 brState).pc ≠ w16 (brState.pc + SEXT brState.ir 8)
    ∧ w16 (brState.pc + SEXT brState.ir 8) = 0x3000
    ∧ (smRun 3 brState).currentState = 18 := by
  refine ⟨by decide, by decide, by decide, by decide, by decide⟩

/-! ### Claim C6: which instructions raise the unknown-opcode error -/

/-- Bits 12–15 selected by the opcode mask: `x &&& 0xF000` is the
opcode nibble shifted into place. -/
lemma and_F000_eq (x : Nat) : x &&& 61440 = ((x >>> 12) % 16) * 4096 := by
  have h1 : (61440 : Nat) = 15 <<< 12 := by decide
  have h2 : ((x >>> 12) % 16) * 4096 = ((x >>> 12) &&& 15) <<< 12 := by
    have h3 : (x >>> 12) &&& 15 = (x >>> 12) % 16 := by
      have h4 := Nat.and_pow_two_sub_one_eq_mod (x >>> 12) 4
      norm_num at h4
      exact h4
    rw [h3, Nat.shiftLeft_eq]
  rw [h1, h2]
  apply Nat.eq_of_testBit_eq
  intro i
  simp only [Nat.testBit_and, Nat.testBit_shiftLeft, Nat.testBit_shiftRight]
  rcases Nat.lt_or_ge i 12 with hi | hi
  · have hni : ¬ (i ≥ 12) := by omega
    simp [hni]
  · have h4 : 12 + (i - 12) = i := by omega
    have h5 : (decide (i ≥ 12)) = true := by simp [hi]
    simp [h4, h5, Bool.and_comm]

/-- The opcode field can only take the sixteen aligned values. -/
lemma and_F000_mem (x : Nat) :
    x &&& 61440 = 0 ∨ x &&& 61440 = 4096 ∨ x &&& 61440 = 8192 ∨ x &&& 61440 = 12288
    ∨ x &&& 61440 = 16384 ∨ x &&& 61440 = 20480 ∨ x &&& 61440 = 24576 ∨ x &&& 61440 = 28672
    ∨ x &&& 61440 = 32768 ∨ x &&& 61440 = 36864 ∨ x &&& 61440 = 40960 ∨ x &&& 61440 = 45056
    ∨ x &&& 61440 = 49152 ∨ x &&& 61440 = 53248 ∨ x &&& 61440 = 57344 ∨ x &&& 61440 = 61440 := by
  rw [and_F000_eq]
  have h : (x >>> 12) % 16 < 16 := Nat.mod_lt _ (by norm_num)
  interval_cases h16 : (x >>> 12) % 16 <;> simp

/-- A machine about to decode RTI (0x8000) in user mode
(`PSR_15 = 0`), with the MCR run bit set. -/
def rtiUserState : SMState :=
  { baseState with
      currentState := 32
      pc := 0x3005
      ir := 0x8000
      mdr := 0x8000
      psr15 := false
      mem := fun a => if a = MCR_ADDR then 0x8000 else 0 }

/-- C6 counterexample: the claim states that executing RTI while
PSR bit 15 = 0 halts the machine with the UnknownOpcode error.  On the
code it does not: decoding RTI in user mode dispatches to state 8
without setting `machine_error`, state 8 is a silent no-op when
`PSR_15 = 0`, and the machine returns to FETCH1 still running, its
state unchanged. -/
theorem rti_in_user_mode_is_silent_noop :
    rtiUserState.ir &&& 0xF000 = 0x8000
    ∧ rtiUserState.psr15 = false
    ∧ (smRun 2 rtiUserState).error = false
    ∧ (smRun 2 rtiUserState).halted = false
    ∧ (smRun 2 rtiUserState).currentState = 18
    ∧ (smRun 2 rtiUserState).pc = rtiUserState.pc := by
  refine ⟨by decide, by decide, by decide, by decide, by decide, by decide⟩

/-- C6 amended: the decode dispatch raises the unknown-opcode error
exactly when `IR[15:12] = 0xD` (it then jumps to the
UNKNOWN_INSTRUCTION state 63); RTI executed in user mode is a silent
no-op — state 8 leaves the machine unchanged when `PSR_15 = 0` — and
does not raise any error. -/
theorem unknown_opcode_exactly_for_0xD :
    ∀ s : SMState, s.error = false →
      (((handle_decode_transition s).2 = true ↔ s.ir &&& 0xF000 = 0xD000)
       ∧ ((handle_decode_transition s).1 = 63 ↔ s.ir &&& 0xF000 = 0xD000)
       ∧ (s.psr15 = false → execState 8 s = s)) := by
  intro s herr
  have hmem := and_F000_mem s.ir
  refine ⟨?_, ?_, ?_⟩
  · unfold handle_decode_transition
    split <;> simp_all
    split <;> simp_all
  · unfold handle_decode_transition
    split <;> simp_all
    split <;> simp_all
  · intro hp
    show (if s.psr15 = true then _ else s) = s
    rw [hp]
    simp

/-- C6 amended, witness: the amended theorem applied to the concrete
user-mode RTI machine. -/
theorem unknown_opcode_exactly_for_0xD_witness :
    rtiUserState.error = false ∧ rtiUserState.psr15 = false
    ∧ ((handle_decode_transition rtiUserState).2 = true ↔ rtiUserState.ir &&& 0xF000 = 0xD000)
    ∧ execState 8 rtiUserState = rtiUserState := by
  refine ⟨rfl, rfl, (unknown_opcode_exactly_for_0xD rtiUserState rfl).1,
    (unknown_opcode_exactly_for_0xD rtiUserState rfl).2.2 rfl⟩

/-! ### Claim C7: the tick-cap guard -/

/-- The infinite two-instruction loop: `ADD R0,R0,#1` at 0x3000 and
`BRnzp #-2` at 0x3001, MCR run bit set, started at FETCH1 with
PC = 0x3000 in supervisor mode. -/
def loopState : SMState :=
  { baseState with
      pc := 0x3000
      mem := fun a => if a = 0x3000 then 0x1021 else if a = 0x3001 then 0x0FFE
                      else if a = MCR_ADDR then 0x8000 else 0 }

/-- States reachable while running `loopState`: because LOAD_IR is
unreachable, IR stays 0, so every decode dispatches to the BR state
with BEN false and the machine cycles FETCH1 → FETCH2 → FETCH3 →
DECODE → BR → FETCH1 forever without halting. -/
def loopInv (s : SMState) : Prop :=
  s.halted = false ∧ s.error = false ∧ s.ir = 0 ∧ s.ben = false
  ∧ s.psr15 = true ∧ s.intf = false ∧ s.acv = false
  ∧ s.mem = loopState.mem ∧ s.pc < 65536
  ∧ (s.currentState = 18 ∨ s.currentState = 33 ∨ s.currentState = 35
     ∨ s.currentState = 32 ∨ s.currentState = 0)

lemma loopState_mem_mcr : loopState.mem MCR_ADDR &&& 0x8000 = 0x8000 := by decide

lemma mod65536_not_gt (x : Nat) : ¬ 65535 < x % 65536 := by omega

lemma mod65536_lt (x : Nat) : x % 65536 < 65536 := by omega

set_option maxHeartbeats 1600000 in
lemma loopInv_step (s : SMState) (h : loopInv s) : loopInv (smIter s) := by
  obtain ⟨hh, he, hir, hben, hpsr, hint, hacv, hmem, hpc, hcs⟩ := h
  obtain ⟨pc, ir, mar, mdr, reg, mem, n, z, p, ben, intf, rsig, psr15, acv, cs, halted, error⟩ := s
  dsimp only at hh he hir hben hpsr hint hacv hmem hpc hcs
  subst hh he hir hben hpsr hint hacv hmem
  have hpc' : ¬ 65535 < pc := by omega
  rcases hcs with hc | hc | hc | hc | hc <;> subst hc <;>
    simp only [smIter, execute_current_state, get_next_state, execState,
      handle_fetch_transition, handle_decode_transition, handle_execution_transition,
      SET_ACV, SET_BEN, loopInv] <;>
    norm_num [loopState_mem_mcr, w16, hpc, hpc', mod65536_not_gt, mod65536_lt,
      Nat.zero_testBit]

theorem loopInv_run (fuel : Nat) :
    ∀ s : SMState, loopInv s → loopInv (smRun fuel s) := by
  induction fuel with
  | zero => intro s h; exact h
  | succ n ih =>
    intro s h
    unfold smRun
    split
    · exact ih _ (loopInv_step s h)
    · exact h

/-- C7: the claim states that the tick-cap guard is effective — a
program that never clears MCR bit 15 makes `state_machine` terminate
with an error, the guard `pointer_counter > UINT16_MAX` being
reachable.  The code refutes it: `pointer_counter` is a `uint16_t`, so
its value is always < 65536 and the guard condition is false in every
reachable state; on the concrete infinite two-instruction loop the main
loop never halts and never errors, no matter how many ticks elapse. -/
theorem tick_guard_never_fires :
    (∀ s : SMState, s.pc < 65536 → guardFires s = false)
    ∧ (∀ fuel : Nat, (smRun fuel loopState).halted = false
        ∧ (smRun fuel loopState).error = false) := by
  constructor
  · intro s h
    unfold guardFires
    simp
    omega
  · intro fuel
    have h0 : loopInv loopState := by
      refine ⟨rfl, rfl, rfl, rfl, rfl, rfl, rfl, rfl, by decide, Or.inl rfl⟩
    have h := loopInv_run fuel loopState h0
    exact ⟨h.1, h.2.1⟩

/-- C7 witness: the guard part of the theorem applied at the concrete
loop machine, whose PC is a 16-bit value. -/
theorem tick_guard_never_fires_witness :
    loopState.pc < 65536 ∧ guardFires loopState = false
    ∧ (smRun 1000 loopState).halted = false := by
  refine ⟨by decide, tick_guard_never_fires.1 loopState (by decide),
    (tick_guard_never_fires.2 1000).1⟩

/-! ### Claim C8: the condition-code invariant -/

/-- Exactly one of the three condition flags N, Z, P is set. -/
def exactlyOneCC (s : SMState) : Prop :=
  s.n.toNat + s.z.toNat + s.p.toNat = 1

lemma setCC_exactlyOne (v : Nat) (s : SMState) : exactlyOneCC (SET_CC v s) := by
  unfold SET_CC exactlyOneCC
  split_ifs <;> rfl

lemma exactlyOneCC_of_eq {s t : SMState} (hn : t.n = s.n) (hz : t.z = s.z)
    (hp : t.p = s.p) (h : exactlyOneCC s) : exactlyOneCC t := by
  unfold exactlyOneCC at h ⊢
  rw [hn, hz, hp]
  exact h

set_option maxRecDepth 4096 in
lemma execState_preserves_cc (i : Nat) (hi : i < 64) (s : SMState) (h : exactlyOneCC s) :
    exactlyOneCC (execState i s) := by
  interval_cases i <;> dsimp only [execState] <;>
    first
      | (refine exactlyOneCC_of_eq ?_ ?_ ?_ h <;> rfl)
      | (split <;> first
          | (refine exactlyOneCC_of_eq ?_ ?_ ?_ h <;> rfl)
          | apply setCC_exactlyOne)
      | apply setCC_exactlyOne

lemma get_next_state_cc (s : SMState) :
    (get_next_state s).n = s.n ∧ (get_next_state s).z = s.z ∧ (get_next_state s).p = s.p := by
  unfold get_next_state
  split <;> exact ⟨rfl, rfl, rfl⟩

lemma execute_current_preserves_cc (s : SMState) (h : exactlyOneCC s) :
    exactlyOneCC (execute_current_state s) := by
  unfold execute_current_state
  split
  next hlt => exact execState_preserves_cc _ hlt _ h
  next => exact h

lemma get_next_state_preserves_cc (s : SMState) (h : exactlyOneCC s) :
    exactlyOneCC (get_next_state s) := by
  obtain ⟨a, b, c⟩ := get_next_state_cc s
  unfold exactlyOneCC
  rw [a, b, c]
  exact h

lemma smIter_preserves_cc (s : SMState) (h : exactlyOneCC s) :
    exactlyOneCC (smIter s) := by
  simp only [smIter]
  have h2 := get_next_state_preserves_cc _ (execute_current_preserves_cc _ h)
  split_ifs <;> exact h2

lemma smRun_preserves_cc (fuel : Nat) :
    ∀ s : SMState, exactlyOneCC s → exactlyOneCC (smRun fuel s) := by
  induction fuel with
  | zero => intro s h; exact h
  | succ m ih =>
    intro s h
    unfold smRun
    split
    · exact ih _ (smIter_preserves_cc s h)
    · exact h

/-- C8: `SET_CC` clears N, Z, P and then sets exactly one of them — N
exactly when bit 15 of its argument is set, Z exactly when the argument
is zero, P otherwise; every state action routine preserves the
exactly-one invariant; the initial flag values (N = 0, Z = 1, P = 0 in
`signals.cpp`) satisfy it; and therefore it holds at every tick of the
main loop. -/
theorem condition_codes_exactly_one :
    (∀ v : Nat, ∀ s : SMState,
       (SET_CC v s).n = v.testBit 15
       ∧ ((SET_CC v s).z = true ↔ v = 0)
       ∧ ((SET_CC v s).p = true ↔ (v ≠ 0 ∧ v.testBit 15 = false))
       ∧ exactlyOneCC (SET_CC v s))
    ∧ (∀ i : Nat, i < 64 → ∀ s : SMState, exactlyOneCC s → exactlyOneCC (execState i s))
    ∧ exactlyOneCC baseState
    ∧ (∀ fuel : Nat, ∀ s : SMState, exactlyOneCC s → exactlyOneCC (smRun fuel s)) := by
  refine ⟨?_, execState_preserves_cc, rfl, smRun_preserves_cc⟩
  intro v s
  have hand := Nat.and_two_pow v 15
  unfold SET_CC bit_table
  split_ifs with h1 h2
  · subst h1
    simp [Nat.zero_testBit, exactlyOneCC]
  · have hbit : v.testBit 15 = true := by
      by_contra hb
      rw [Bool.not_eq_true] at hb
      rw [hb] at hand
      simp at hand
      exact h2 hand
    simp [hbit, h1, exactlyOneCC]
  · push_neg at h2
    norm_num at h2
    have hbit : v.testBit 15 = false := by
      by_contra hb
      rw [Bool.not_eq_false] at hb
      rw [hb] at hand
      norm_num at hand
      omega
    simp [hbit, h1, exactlyOneCC]

/-- C8 witness: the invariant-preservation conjuncts applied at a
concrete state (the reset machine) and a concrete run. -/
theorem condition_codes_exactly_one_witness :
    exactlyOneCC baseState
    ∧ exactlyOneCC (execState 1 baseState)
    ∧ exactlyOneCC (smRun 25 loopState) := by
  refine ⟨condition_codes_exactly_one.2.2.1,
    condition_codes_exactly_one.2.1 1 (by norm_num) baseState condition_codes_exactly_one.2.2.1,
    condition_codes_exactly_one.2.2.2 25 loopState rfl⟩

/-!
## The pipeline model

Embedding of `src/src/core/pipeline/pipeline_simulator.c` (whose cycle,
issue and decode logic is duplicated verbatim, up to an `lc3_` prefix,
in `src/src/core/memory/control_store.c`; the latter also provides the
configuration entry point `lc3_pipeline_configure`, which copies a
caller-supplied configuration and resets the pipeline).
-/

/-- `stage_type_t` from `pipeline_config.h`. -/
inductive StageT where
  | fetch
  | decode
  | execute
  | memory
  | writeback
  | custom
  deriving DecidableEq, Inhabited

/-- `hazard_type_t` from `pipeline_config.h`. -/
inductive HazardT where
  | nohazard
  | raw
  | waw
  | war
  | control
  | structural
  deriving DecidableEq, Inhabited

/-- `cache_config_t` from `pipeline_config.h` (the fields the simulator
reads). -/
structure CacheCfg where
  enabled : Bool
  size : Nat
  line_size : Nat
  hit_latency : Nat
  miss_penalty : Nat
  deriving DecidableEq, Inhabited

/-- `pipeline_config_t` from `pipeline_config.h` (the fields the
simulator reads); `stages` is the 8-entry stage array, modelled as a
function on stage indices. -/
structure PipelineConfig where
  stages : Nat → StageT
  depth : Nat
  forwarding_enabled : Bool
  branch_prediction_enabled : Bool
  memory_latency : Nat
  branch_penalty : Nat
  icache : CacheCfg
  dcache : CacheCfg

/-- `instruction_packet_t` from `pipeline_config.h`.  The 4-entry
`hazards` array is modelled as the list of values written to it, in
write order, together with the `num_hazards` counter (a `uint8_t`). -/
structure Packet where
  instruction : Nat
  pc : Nat
  opcode : Nat
  dest_reg : Nat
  src_reg1 : Nat
  src_reg2 : Nat
  immediate : Nat
  issue_cycle : Nat
  completion_cycle : Nat
  current_stage : StageT
  stage_completed : StageT → Bool
  hazards : List HazardT
  num_hazards : Nat
  stalled : Bool
  stall_cycles : Nat
  needs_memory : Bool
  memory_address : Nat
  is_load : Bool
  is_store : Bool
  is_branch : Bool
  branch_taken : Bool
  branch_target : Nat

/-- `pipeline_metrics_t` from `pipeline_config.h` (the counters; the
derived floating-point ratios are computed only on demand and are not
part of the state). -/
structure Metrics where
  total_cycles : Nat
  total_instructions : Nat
  stall_cycles : Nat
  data_hazards : Nat
  control_hazards : Nat
  structural_hazards : Nat
  icache_hits : Nat
  icache_misses : Nat
  dcache_hits : Nat
  dcache_misses : Nat
  branches_total : Nat
  memory_reads : Nat
  memory_writes : Nat
  memory_stall_cycles : Nat
  deriving DecidableEq, Inhabited

/-- The global pipeline state: `g_pipeline_config`, `g_pipeline[8]`,
`g_pipeline_metrics` and `g_current_cycle`. -/
structure PState where
  config : PipelineConfig
  pipeline : Nat → Packet
  metrics : Metrics
  current_cycle : Nat

/-- `instruction_packet_init`: the all-clear packet. -/
def emptyPacket : Packet where
  instruction := 0
  pc := 0
  opcode := 0
  dest_reg := 0
  src_reg1 := 0
  src_reg2 := 0
  immediate := 0
  issue_cycle := 0
  completion_cycle := 0
  current_stage := StageT.fetch
  stage_completed := fun _ => false
  hazards := []
  num_hazards := 0
  stalled := false
  stall_cycles := 0
  needs_memory := false
  memory_address := 0
  is_load := false
  is_store := false
  is_branch := false
  branch_taken := false
  branch_target := 0

/-- All-zero metrics (`pipeline_metrics_reset`). -/
def metricsZero : Metrics where
  total_cycles := 0
  total_instructions := 0
  stall_cycles := 0
  data_hazards := 0
  control_hazards := 0
  structural_hazards := 0
  icache_hits := 0
  icache_misses := 0
  dcache_hits := 0
  dcache_misses := 0
  branches_total := 0
  memory_reads := 0
  memory_writes := 0
  memory_stall_cycles := 0

/-- Update one slot of the 8-entry pipeline array. -/
def writeSlot (f : Nat → Packet) (j : Nat) (p : Packet) : Nat → Packet :=
  fun k => if k = j then p else f k

/-- Mark one stage of a packet completed
(`packet->stage_completed[st] = true`). -/
def markCompleted (p : Packet) (st : StageT) : Packet :=
  { p with stage_completed := fun t => if t = st then true else p.stage_completed t }

/-- `decode_instruction` from `pipeline_simulator.c`: populate a packet
from an instruction word. -/
def decode_instruction (p0 : Packet) (instruction pcv : Nat) : Packet :=
  let p := { p0 with instruction := instruction, pc := pcv,
                     opcode := instruction &&& 0xF000 }
  match instruction &&& 0xF000 with
  | 0x1000 | 0x5000 =>            -- ADD / AND
    let p1 := { p with dest_reg := (instruction >>> 9) &&& 7,
                       src_reg1 := (instruction >>> 6) &&& 7 }
    if instruction &&& 0x20 ≠ 0 then
      { p1 with immediate := instruction &&& 0x1F, src_reg2 := 0 }
    else
      { p1 with src_reg2 := instruction &&& 7, immediate := 0 }
  | 0x9000 =>                     -- NOT
    { p with dest_reg := (instruction >>> 9) &&& 7,
             src_reg1 := (instruction >>> 6) &&& 7,
             src_reg2 := 0, immediate := 0 }
  | 0x2000 | 0xA000 | 0xE000 | 0x3000 | 0xB000 =>  -- LD / LDI / LEA / ST / STI
    let op := instruction &&& 0xF000
    { p with dest_reg := (instruction >>> 9) &&& 7,
             src_reg1 := 0, src_reg2 := 0,
             immediate := instruction &&& 0x1FF,
             needs_memory := op = 0x2000 ∨ op = 0xA000 ∨ op = 0x3000 ∨ op = 0xB000,
             is_load := op = 0x2000 ∨ op = 0xA000,
             is_store := op = 0x3000 ∨ op = 0xB000 }
  | 0x6000 | 0x7000 =>            -- LDR / STR
    let op := instruction &&& 0xF000
    { p with dest_reg := (instruction >>> 9) &&& 7,
             src_reg1 := (instruction >>> 6) &&& 7,
             src_reg2 := 0,
             immediate := instruction &&& 0x3F,
             needs_memory := true,
             is_load := op = 0x6000,
             is_store := op = 0x7000 }
  | 0x0000 =>                     -- BR
    { p with dest_reg := 0, src_reg1 := 0, src_reg2 := 0,
             immediate := instruction &&& 0x1FF, is_branch := true }
  | 0xC000 | 0x4000 =>            -- JMP / JSR
    { p with dest_reg := 0, src_reg1 := (instruction >>> 6) &&& 7,
             src_reg2 := 0, immediate := instruction &&& 0x7FF,
             is_branch := true }
  | _ => p

/-- `check_data_hazard` from `pipeline_simulator.c`. -/
def check_data_hazard (cur prev : Packet) : HazardT :=
  if prev.dest_reg ≠ 0
     ∧ (cur.src_reg1 = prev.dest_reg ∨ cur.src_reg2 = prev.dest_reg) then
    HazardT.raw
  else if cur.dest_reg ≠ 0 ∧ prev.dest_reg ≠ 0 ∧ cur.dest_reg = prev.dest_reg then
    HazardT.waw
  else if cur.dest_reg ≠ 0
          ∧ (prev.src_reg1 = cur.dest_reg ∨ prev.src_reg2 = cur.dest_reg) then
    HazardT.war
  else
    HazardT.nohazard

/-- `check_control_hazard` from `pipeline_simulator.c`. -/
def check_control_hazard (p : Packet) : Bool := p.is_branch

/-- `simulate_cache_access` from `pipeline_simulator.c` (the unused
`cache_lines`/`line_index` locals are dead and omitted): bump the
memory-stall and hit/miss counters; the hit predicate is the source's
`((address + g_current_cycle) % 10) < 9`. -/
def simulate_cache_access (cache : CacheCfg) (cfg : PipelineConfig) (address : Nat)
    (is_write : Bool) (cur_cycle : Nat) (m : Metrics) : Metrics :=
  if cache.enabled = false then
    { m with memory_stall_cycles := m.memory_stall_cycles + cfg.memory_latency }
  else if (address + cur_cycle) % 10 < 9 then
    let m1 := { m with memory_stall_cycles := m.memory_stall_cycles + cache.hit_latency }
    if is_write then { m1 with dcache_hits := m1.dcache_hits + 1 }
    else { m1 with icache_hits := m1.icache_hits + 1 }
  else
    let m1 := { m with memory_stall_cycles := m.memory_stall_cycles + cache.miss_penalty }
    if is_write then { m1 with dcache_misses := m1.dcache_misses + 1 }
    else { m1 with icache_misses := m1.icache_misses + 1 }

/-- One iteration of the hazard-recording loop in the DECODE case of
`pipeline_cycle`: check the packet against one deeper packet, append
the hazard (`packet->hazards[packet->num_hazards++] = hazard`, with the
`uint8_t` counter wrapping), and stall when forwarding is disabled. -/
def recordHazard (fwd : Bool) (acc : Packet × Metrics) (prev : Packet) :
    Packet × Metrics :=
  let pkt := acc.1
  let m := acc.2
  let h := check_data_hazard pkt prev
  if h ≠ HazardT.nohazard then
    let pkt1 := { pkt with hazards := pkt.hazards ++ [h],
                           num_hazards := (pkt.num_hazards + 1) % 256 }
    if fwd = false then
      ({ pkt1 with stalled := true, stall_cycles := pkt1.stall_cycles + 1 },
       { m with stall_cycles := m.stall_cycles + 1,
                data_hazards := m.data_hazards + 1 })
    else (pkt1, m)
  else (pkt, m)

/-- Stage indices deeper than `j` (`for i = stage+1; i < depth; i++`). -/
def deeperSlots (j depth : Nat) : List Nat := List.range' (j + 1) (depth - (j + 1))

/-- The per-stage `switch` of `pipeline_cycle`, acting on the occupied
slot `j`. -/
def stageAction (st : PState) (j : Nat) : PState :=
  let packet := st.pipeline j
  match st.config.stages j with
  | StageT.fetch =>
    let m := simulate_cache_access st.config.icache st.config packet.pc false
               st.current_cycle st.metrics
    { st with pipeline := writeSlot st.pipeline j (markCompleted packet StageT.fetch),
              metrics := m }
  | StageT.decode =>
    let acc := ((deeperSlots j st.config.depth).map st.pipeline).foldl
                 (recordHazard st.config.forwarding_enabled) (packet, st.metrics)
    let pkt2 := if acc.1.stalled = false then markCompleted acc.1 StageT.decode else acc.1
    { st with pipeline := writeSlot st.pipeline j pkt2, metrics := acc.2 }
  | StageT.execute =>
    let m :=
      if packet.is_branch && check_control_hazard packet then
        let m1 := { st.metrics with control_hazards := st.metrics.control_hazards + 1 }
        let m2 := if st.config.branch_prediction_enabled = false then
                    { m1 with stall_cycles := m1.stall_cycles + st.config.branch_penalty }
                  else m1
        { m2 with branches_total := m2.branches_total + 1 }
      else st.metrics
    { st with pipeline := writeSlot st.pipeline j (markCompleted packet StageT.execute),
              metrics := m }
  | StageT.memory =>
    let m :=
      if packet.needs_memory then
        let m1 := simulate_cache_access st.config.dcache st.config packet.memory_address
                    packet.is_store st.current_cycle st.metrics
        if packet.is_load then { m1 with memory_reads := m1.memory_reads + 1 }
        else if packet.is_store then { m1 with memory_writes := m1.memory_writes + 1 }
        else m1
      else st.metrics
    { st with pipeline := writeSlot st.pipeline j (markCompleted packet StageT.memory),
              metrics := m }
  | StageT.writeback =>
    { st with pipeline := writeSlot st.pipeline j emptyPacket,
              metrics := { st.metrics with
                             total_instructions := st.metrics.total_instructions + 1 } }
  | StageT.custom => st

/-- The per-stage body of `pipeline_cycle`: skip empty slots, run the
stage action, then advance the packet when it is not stalled and the
next slot is empty. -/
def processStage (st : PState) (j : Nat) : PState :=
  if (st.pipeline j).instruction = 0 then st
  else
    let st1 := stageAction st j
    let p' := st1.pipeline j
    if p'.stalled = false ∧ j + 1 < st1.config.depth
       ∧ (st1.pipeline (j + 1)).instruction = 0 then
      { st1 with pipeline := writeSlot (writeSlot st1.pipeline (j + 1) p') j emptyPacket }
    else st1

/-- `pipeline_cycle`: bump the cycle counters, then walk the stages in
reverse order (deepest first). -/
def pipeline_cycle (st : PState) : PState :=
  let st1 := { st with current_cycle := st.current_cycle + 1,
                       metrics := { st.metrics with
                                      total_cycles := st.metrics.total_cycles + 1 } }
  (List.range st1.config.depth).reverse.foldl processStage st1

/-- `pipeline_issue_instruction`: issue into slot 0, or record a
structural hazard when slot 0 is occupied. -/
def pipeline_issue_instruction (instruction pcv : Nat) (st : PState) : PState :=
  if (st.pipeline 0).instruction ≠ 0 then
    { st with metrics := { st.metrics with
                             stall_cycles := st.metrics.stall_cycles + 1,
                             structural_hazards := st.metrics.structural_hazards + 1 } }
  else
    let p := decode_instruction emptyPacket instruction pcv
    { st with pipeline := writeSlot st.pipeline 0 { p with issue_cycle := st.current_cycle } }

/-- The default cache configuration of `pipeline_config_init_default`. -/
def cacheDefault : CacheCfg where
  enabled := true
  size := 4096
  line_size := 32
  hit_latency := 1
  miss_penalty := 10

/-- `pipeline_config_init_default`: the default 5-stage pipeline with
forwarding enabled (unwritten entries of the static `stages` array are
zero, i.e. `STAGE_FETCH`). -/
def configDefault : PipelineConfig where
  stages := fun j =>
    if j = 0 then StageT.fetch
    else if j = 1 then StageT.decode
    else if j = 2 then StageT.execute
    else if j = 3 then StageT.memory
    else if j = 4 then StageT.writeback
    else StageT.fetch
  depth := 5
  forwarding_enabled := true
  branch_prediction_enabled := false
  memory_latency := 1
  branch_penalty := 2
  icache := cacheDefault
  dcache := cacheDefault

/-- `pipeline_init`: default configuration, empty slots, zero
metrics. -/
def pipelineInit : PState where
  config := configDefault
  pipeline := fun _ => emptyPacket
  metrics := metricsZero
  current_cycle := 0

/-- `lc3_pipeline_configure` (from `control_store.c`, the duplicated
implementation that exposes configuration): copy the caller's
configuration, then reset slots, metrics and the cycle counter. -/
def pipeline_configure (cfg : PipelineConfig) (st : PState) : PState :=
  { st with config := cfg, pipeline := fun _ => emptyPacket,
            metrics := metricsZero, current_cycle := 0 }

/-- An externally driven pipeline step: one `pipeline_cycle` or one
`pipeline_issue_instruction`. -/
inductive POp where
  | cycle
  | issue (instruction pcv : Nat)

/-- Apply one pipeline operation. -/
def applyOp (st : PState) (op : POp) : PState :=
  match op with
  | POp.cycle => pipeline_cycle st
  | POp.issue w pcv => pipeline_issue_instruction w pcv st

/-- Apply a sequence of pipeline operations, oldest first. -/
def applyOps (ops : List POp) (st : PState) : PState := ops.foldl applyOp st

/-! ### Claim C5: the four-hazard bound on a packet -/

/-- A cache configuration with the cache disabled. -/
def cacheOff : CacheCfg where
  enabled := false
  size := 4096
  line_size := 32
  hit_latency := 1
  miss_penalty := 10

/-- A legal depth-8 configuration (8 stages drawn from the stage enum,
forwarding enabled), as a caller may install via
`lc3_pipeline_configure`, which performs no validation. -/
def cfg8 : PipelineConfig where
  stages := fun j =>
    if j = 0 then StageT.fetch
    else if j = 1 then StageT.decode
    else if j = 5 then StageT.execute
    else if j = 6 then StageT.memory
    else if j = 7 then StageT.writeback
    else StageT.custom
  depth := 8
  forwarding_enabled := true
  branch_prediction_enabled := false
  memory_latency := 1
  branch_penalty := 2
  icache := cacheOff
  dcache := cacheOff

/-- Seven dependent `ADD R1,R1,#1` (0x1261) instructions, one issued
before each of seven cycles. -/
def c5Ops : List POp :=
  [POp.issue 0x1261 0x3000, POp.cycle,
   POp.issue 0x1261 0x3001, POp.cycle,
   POp.issue 0x1261 0x3002, POp.cycle,
   POp.issue 0x1261 0x3003, POp.cycle,
   POp.issue 0x1261 0x3004, POp.cycle,
   POp.issue 0x1261 0x3005, POp.cycle,
   POp.issue 0x1261 0x3006, POp.cycle]

/-- The pipeline state after the seven issue/cycle pairs under the
depth-8 configuration. -/
def c5Final : PState := applyOps c5Ops (pipeline_configure cfg8 pipelineInit)

/-- C5: the claim states that `num_hazards` never exceeds 4 and every
write to the packet's 4-entry `hazards` array stays in bounds,
regardless of how many deeper packets conflict.  The code refutes it:
the recording statement `packet->hazards[packet->num_hazards++] =
hazard` has no bound check, and under a legal depth-8 configuration the
sixth instruction of a dependent stream meets five deeper conflicting
packets in a single DECODE pass, so `num_hazards` reaches 5 and the
fifth write hits index 4 — one past the end of the array. -/
theorem hazard_recording_overflows_four_entry_array :
    (c5Final.pipeline 2).num_hazards = 5
    ∧ 4 < (c5Final.pipeline 2).num_hazards
    ∧ (c5Final.pipeline 2).hazards.length = 5
    ∧ (c5Final.pipeline 2).instruction = 0x1261
    ∧ (c5Final.pipeline 2).hazards = [HazardT.raw, HazardT.raw, HazardT.raw,
                                      HazardT.raw, HazardT.raw] := by
  refine ⟨by decide, by decide, by decide, by decide, by decide⟩

/-! ### Claim C9: a stalled packet is stuck forever -/

/-- Slot `i` holds a stalled packet with (nonzero) instruction word `w`
at a DECODE stage whose decode has not completed. -/
def stalledAt (i w : Nat) (s : PState) : Prop :=
  (s.pipeline i).stalled = true
  ∧ (s.pipeline i).instruction = w
  ∧ s.config.stages i = StageT.decode
  ∧ (s.pipeline i).stage_completed StageT.decode = false

lemma writeSlot_ne (f : Nat → Packet) (j : Nat) (p : Packet) (i : Nat) (h : i ≠ j) :
    writeSlot f j p i = f i := by
  simp [writeSlot, h]

lemma writeSlot_same (f : Nat → Packet) (j : Nat) (p : Packet) :
    writeSlot f j p j = p := by
  simp [writeSlot]

lemma recordHazard_fields (fwd : Bool) (acc : Packet × Metrics) (prev : Packet) :
    (recordHazard fwd acc prev).1.instruction = acc.1.instruction
    ∧ (acc.1.stalled = true → (recordHazard fwd acc prev).1.stalled = true)
    ∧ (recordHazard fwd acc prev).1.stage_completed = acc.1.stage_completed := by
  unfold recordHazard
  dsimp only
  split_ifs <;> simp_all

lemma foldRecord_fields (fwd : Bool) (l : List Packet) (acc : Packet × Metrics) :
    (l.foldl (recordHazard fwd) acc).1.instruction = acc.1.instruction
    ∧ (acc.1.stalled = true → (l.foldl (recordHazard fwd) acc).1.stalled = true)
    ∧ (l.foldl (recordHazard fwd) acc).1.stage_completed = acc.1.stage_completed := by
  induction l generalizing acc with
  | nil => exact ⟨rfl, fun h => h, rfl⟩
  | cons x xs ih =>
    simp only [List.foldl_cons]
    obtain ⟨a, b, c⟩ := ih (recordHazard fwd acc x)
    obtain ⟨d, e, f⟩ := recordHazard_fields fwd acc x
    exact ⟨a.trans d, fun hs => b (e hs), c.trans f⟩

lemma stageAction_config (s : PState) (j : Nat) : (stageAction s j).config = s.config := by
  unfold stageAction
  split <;> rfl

lemma stageAction_other (s : PState) (j i : Nat) (h : i ≠ j) :
    (stageAction s j).pipeline i = s.pipeline i := by
  unfold stageAction
  split <;> simp [writeSlot, h]

lemma stageAction_decode_self (s : PState) (i : Nat)
    (hst : s.config.stages i = StageT.decode)
    (hstall : (s.pipeline i).stalled = true) :
    ((stageAction s i).pipeline i).stalled = true
    ∧ ((stageAction s i).pipeline i).instruction = (s.pipeline i).instruction
    ∧ ((stageAction s i).pipeline i).stage_completed = (s.pipeline i).stage_completed := by
  obtain ⟨a, b, c⟩ := foldRecord_fields s.config.forwarding_enabled
    ((deeperSlots i s.config.depth).map s.pipeline) (s.pipeline i, s.metrics)
  have hb := b hstall
  unfold stageAction
  rw [hst]
  dsimp only
  rw [writeSlot_same]
  rw [hb]
  simp only [Bool.true_eq_false, if_false]
  exact ⟨hb, a, c⟩

lemma processStage_preserves (s : PState) (j i w : Nat) (hw : w ≠ 0)
    (h : stalledAt i w s) : stalledAt i w (processStage s j) := by
  obtain ⟨h1, h2, h3, h4⟩ := h
  unfold processStage stalledAt
  dsimp only
  split
  · exact ⟨h1, h2, h3, h4⟩
  · by_cases hij : i = j
    · subst hij
      have hd := stageAction_decode_self s i h3 h1
      have hcfg := stageAction_config s i
      split
      · next hadv =>
          rw [hd.1] at hadv
          simp at hadv
      · exact ⟨hd.1, hd.2.1.trans h2, by rw [hcfg]; exact h3, by rw [hd.2.2]; exact h4⟩
    · have hother := stageAction_other s j i hij
      have hcfg := stageAction_config s j
      split
      · next hadv =>
          by_cases hij1 : i = j + 1
          · exfalso
            rw [← hij1, hother, h2] at hadv
            exact hw hadv.2.2
          · refine ⟨?_, ?_, by dsimp only; rw [hcfg]; exact h3, ?_⟩ <;>
              dsimp only <;>
              rw [writeSlot_ne _ _ _ _ hij, writeSlot_ne _ _ _ _ hij1, hother]
            · exact h1
            · exact h2
            · exact h4
      · exact ⟨by rw [hother]; exact h1, by rw [hother]; exact h2,
          by rw [hcfg]; exact h3, by rw [hother]; exact h4⟩

lemma foldProcess_preserves (l : List Nat) (s : PState) (i w : Nat) (hw : w ≠ 0)
    (h : stalledAt i w s) : stalledAt i w (l.foldl processStage s) := by
  induction l generalizing s with
  | nil => exact h
  | cons x xs ih =>
    simp only [List.foldl_cons]
    exact ih _ (processStage_preserves s x i w hw h)

lemma cycle_preserves_stalled (s : PState) (i w : Nat) (hw : w ≠ 0)
    (h : stalledAt i w s) : stalledAt i w (pipeline_cycle s) := by
  unfold pipeline_cycle
  exact foldProcess_preserves _ _ i w hw h

lemma issue_preserves_stalled (instr pcv : Nat) (s : PState) (i w : Nat) (hw : w ≠ 0)
    (h : stalledAt i w s) : stalledAt i w (pipeline_issue_instruction instr pcv s) := by
  obtain ⟨h1, h2, h3, h4⟩ := h
  unfold pipeline_issue_instruction stalledAt
  dsimp only
  split
  · exact ⟨h1, h2, h3, h4⟩
  · next hocc =>
      by_cases hi0 : i = 0
      · exfalso
        subst hi0
        push_neg at hocc
        rw [h2] at hocc
        exact hw hocc
      · refine ⟨?_, ?_, h3, ?_⟩ <;> dsimp only <;> rw [writeSlot_ne _ _ _ _ hi0]
        · exact h1
        · exact h2
        · exact h4

/-- C9: once a packet at a DECODE stage has been marked stalled,
no later `pipeline_cycle` or `pipeline_issue_instruction` ever clears
the flag: the packet stays in the same slot with the same instruction
word, its DECODE stage never completes, its slot's stage type remains
DECODE (so it never reaches a WRITEBACK stage and is never counted in
`total_instructions`). -/
theorem stalled_packet_never_advances :
    ∀ (ops : List POp) (s : PState) (i w : Nat), w ≠ 0 →
      (s.pipeline i).stalled = true →
      (s.pipeline i).instruction = w →
      s.config.stages i = StageT.decode →
      (s.pipeline i).stage_completed StageT.decode = false →
      ((applyOps ops s).pipeline i).stalled = true
      ∧ ((applyOps ops s).pipeline i).instruction = w
      ∧ (applyOps ops s).config.stages i = StageT.decode
      ∧ ((applyOps ops s).pipeline i).stage_completed StageT.decode = false := by
  intro ops
  induction ops with
  | nil => intro s i w hw h1 h2 h3 h4; exact ⟨h1, h2, h3, h4⟩
  | cons op rest ih =>
    intro s i w hw h1 h2 h3 h4
    have hstep : stalledAt i w (applyOp s op) := by
      cases op with
      | cycle => exact cycle_preserves_stalled s i w hw ⟨h1, h2, h3, h4⟩
      | issue instr pcv => exact issue_preserves_stalled instr pcv s i w hw ⟨h1, h2, h3, h4⟩
    exact ih (applyOp s op) i w hw hstep.1 hstep.2.1 hstep.2.2.1 hstep.2.2.2

/-- The default configuration with forwarding disabled, as installed by
the hazard demo (`lc3_pipeline_config.forwarding_enabled = false`). -/
def cfgNoFwd : PipelineConfig :=
  { configDefault with forwarding_enabled := false }

/-- Three dependent `ADD R1,R1,#1` issues under the no-forwarding
configuration; the third cycle marks the second packet stalled at the
DECODE stage (slot 1). -/
def c9Ops : List POp :=
  [POp.issue 0x1261 0x3000, POp.cycle,
   POp.issue 0x1261 0x3001, POp.cycle,
   POp.issue 0x1261 0x3002, POp.cycle]

/-- A genuinely reached pipeline state containing a stalled packet. -/
def c9State : PState := applyOps c9Ops (pipeline_configure cfgNoFwd pipelineInit)

/-- C9 witness: the theorem applied to the concrete stalled state, over
a concrete later operation sequence. -/
theorem stalled_packet_never_advances_witness :
    (c9State.pipeline 1).stalled = true
    ∧ ((applyOps [POp.cycle, POp.cycle, POp.issue 0x1261 0x3003, POp.cycle]
          c9State).pipeline 1).stalled = true
    ∧ ((applyOps [POp.cycle, POp.cycle, POp.issue 0x1261 0x3003, POp.cycle]
          c9State).pipeline 1).instruction = 0x1261 := by
  have h := stalled_packet_never_advances
    [POp.cycle, POp.cycle, POp.issue 0x1261 0x3003, POp.cycle] c9State 1 0x1261
    (by decide) (by decide) (by decide) (by decide) (by decide)
  exact ⟨by decide, h.1, h.2.1⟩

/-! ### Claim C10: instruction word 0 as the empty-slot sentinel -/

lemma processStage_empty_slot (s : PState) (j : Nat)
    (h : (s.pipeline j).instruction = 0) : processStage s j = s := by
  unfold processStage
  simp [h]

lemma foldProcess_empty (l : List Nat) (s : PState)
    (h : ∀ k, (s.pipeline k).instruction = 0) : l.foldl processStage s = s := by
  induction l with
  | nil => rfl
  | cons x xs ih =>
    simp only [List.foldl_cons]
    rw [processStage_empty_slot s x (h x)]
    exact ih

lemma pipeline_cycle_empty (s : PState) (h : ∀ k, (s.pipeline k).instruction = 0) :
    (pipeline_cycle s).pipeline = s.pipeline
    ∧ (pipeline_cycle s).metrics.total_instructions = s.metrics.total_instructions
    ∧ (pipeline_cycle s).metrics.structural_hazards = s.metrics.structural_hazards := by
  have h2 : pipeline_cycle s
      = { s with current_cycle := s.current_cycle + 1,
                 metrics := { s.metrics with
                                total_cycles := s.metrics.total_cycles + 1 } } :=
    foldProcess_empty _ _ (fun k => h k)
  rw [h2]
  exact ⟨rfl, rfl, rfl⟩

lemma cycles_keep_empty (n : Nat) :
    ∀ s : PState, (∀ k, (s.pipeline k).instruction = 0) →
      (applyOps (List.replicate n POp.cycle) s).pipeline = s.pipeline
      ∧ (applyOps (List.replicate n POp.cycle) s).metrics.total_instructions
          = s.metrics.total_instructions
      ∧ (applyOps (List.replicate n POp.cycle) s).metrics.structural_hazards
          = s.metrics.structural_hazards := by
  induction n with
  | zero => intro s h; exact ⟨rfl, rfl, rfl⟩
  | succ m ih =>
    intro s h
    rw [List.replicate_succ]
    show (applyOps (List.replicate m POp.cycle) (pipeline_cycle s)).pipeline = s.pipeline ∧ _
    obtain ⟨hp, ht, hs⟩ := pipeline_cycle_empty s h
    obtain ⟨a, b, c⟩ := ih (pipeline_cycle s) (fun k => by rw [hp]; exact h k)
    exact ⟨a.trans hp, b.trans ht, c.trans hs⟩

lemma decode_instruction_word (p0 : Packet) (w pcv : Nat) :
    (decode_instruction p0 w pcv).instruction = w := by
  unfold decode_instruction
  dsimp only
  split <;> first | rfl | (split <;> rfl)

lemma issue_on_empty_slot (w pcv : Nat) (s : PState)
    (h0 : (s.pipeline 0).instruction = 0) :
    (pipeline_issue_instruction w pcv s).metrics.structural_hazards
      = s.metrics.structural_hazards
    ∧ ((pipeline_issue_instruction w pcv s).pipeline 0).instruction = w := by
  have hcond : ¬ (s.pipeline 0).instruction ≠ 0 := by simp [h0]
  unfold pipeline_issue_instruction
  rw [if_neg hcond]
  refine ⟨rfl, ?_⟩
  show (writeSlot s.pipeline 0 _ 0).instruction = w
  rw [writeSlot_same]
  exact decode_instruction_word _ _ _

/-- The pipeline state right after issuing instruction word 0x0000
(architecturally `BR` with all flag bits clear) into the freshly
initialized pipeline. -/
def c10Issued : PState := pipeline_issue_instruction 0 0x3000 pipelineInit

/-- C10: issuing instruction 0x0000 does create a stage-0 packet (its
decode marks it a branch), but because its `instruction` field is the
empty-slot sentinel 0, every later `pipeline_cycle` skips it: the
pipeline array never changes, the packet never advances or reaches
WRITEBACK, `total_instructions` stays 0 — and a following issue
overwrites slot 0 without recording a structural hazard. -/
theorem instruction_zero_is_empty_sentinel :
    (c10Issued.pipeline 0).is_branch = true
    ∧ (c10Issued.pipeline 0).instruction = 0
    ∧ ∀ n : Nat,
        (applyOps (List.replicate n POp.cycle) c10Issued).pipeline = c10Issued.pipeline
        ∧ (applyOps (List.replicate n POp.cycle) c10Issued).metrics.total_instructions = 0
        ∧ (pipeline_issue_instruction 0x1261 0x3001
             (applyOps (List.replicate n POp.cycle) c10Issued)).metrics.structural_hazards = 0
        ∧ ((pipeline_issue_instruction 0x1261 0x3001
             (applyOps (List.replicate n POp.cycle) c10Issued)).pipeline 0).instruction
            = 0x1261 := by
  have hall : ∀ k, (c10Issued.pipeline k).instruction = 0 := by
    intro k
    unfold c10Issued pipeline_issue_instruction
    simp only [pipelineInit, emptyPacket, ne_eq, not_true_eq_false, if_false]
    by_cases hk : k = 0
    · subst hk
      rw [writeSlot_same]
      exact decode_instruction_word _ _ _
    · rw [writeSlot_ne _ _ _ _ hk]
  refine ⟨by decide, hall 0, ?_⟩
  intro n
  obtain ⟨hp, ht, hs⟩ := cycles_keep_empty n c10Issued hall
  have h0 : ((applyOps (List.replicate n POp.cycle) c10Issued).pipeline 0).instruction = 0 := by
    rw [hp]
    exact hall 0
  obtain ⟨a, b⟩ := issue_on_empty_slot 0x1261 0x3001 _ h0
  refine ⟨hp, ht.trans (by decide), a.trans (hs.trans (by decide)), b⟩

end LC3
